import Mathlib

/-
Verification of the non-empty-sequence abstraction in
parse_dont_validate_rs.

Shallow embedding conventions:
* Rust `Vec<T>` and slices are `List T`; `PathBuf` is `List Char`
  (the `.into()` conversion from a string piece is the identity here).
* `Vec::pop` removes and returns the LAST element, so it is embedded as
  `(v.getLast?, v.dropLast)`.
* Fallible functions return `Except String _`; a `panic!` branch is
  embedded as the `.error` branch, so "the panic is unreachable" becomes
  "the result is always `.ok`".
* The `CONFIG_DIRS` environment variable is a parameter of type
  `Option (List Char)` (`none` = unset); `unwrap_or_default` is `getD []`.
* The `initialize_cache` stub (`todo!`) is out of scope per the spec; the
  embedded `main` returns the value that would be handed to it.
-/

namespace ParseDontValidate

/-- Embedding of `struct NonEmptyVec<T>(T, Vec<T>)` from
`src/configuration_directories/src/non_empty.rs` line 21. Field `f0` is the
tuple component `.0`, field `f1` is `.1`. -/
structure NonEmptyVec (T : Type) where
  f0 : T
  f1 : List T
  deriving DecidableEq, Repr

/-- Embedding of `fn head<T>(vec: NonEmptyVec<T>) -> T { vec.0 }` from
non_empty.rs lines 23-25. -/
def head {T : Type} (vec : NonEmptyVec T) : T :=
  vec.f0

/-- Embedding of Rust `Vec::pop`: removes and returns the last element;
returns the popped element (if any) together with the remaining vector. -/
def pop {T : Type} (v : List T) : Option T × List T :=
  (v.getLast?, v.dropLast)

/-- Embedding of `fn parse_non_empty<T>(mut vec: Vec<T>) ->
Result<NonEmptyVec<T>, String>` from non_empty.rs lines 39-44: match on
`vec.pop()`; `None` gives `Err("Vec was empty")`, `Some(head)` gives
`Ok(NonEmptyVec(head, vec))` where `vec` is the vector after the pop. -/
def parse_non_empty {T : Type} (vec : List T) : Except String (NonEmptyVec T) :=
  match pop vec with
  | (none, _) => .error "Vec was empty"
  | (some h, rest) => .ok ⟨h, rest⟩

/-- Embedding of `fn validate_non_empty<T>(vec: Vec<T>) -> Result<(), String>`
from non_empty.rs lines 31-37. -/
def validate_non_empty {T : Type} (vec : List T) : Except String Unit :=
  if vec.isEmpty then .error "Slice was empty" else .ok ()

/-- Modelled from the spec: the repository has no `intoSequence`; the spec
defines the degrade-to-general-sequence operation as "head followed by tail,
in order; total length = 1 + tail length". -/
def intoSequence {T : Type} (v : NonEmptyVec T) : List T :=
  head v :: v.f1

/-- Embedding of Rust `str::split(',')` applied to a string viewed as a list
of characters: splitting the empty string yields one empty piece, and a
separator character starts a new (initially empty) piece. -/
def splitComma : List Char → List (List Char)
  | [] => [[]]
  | c :: cs =>
    if c = ',' then [] :: splitComma cs
    else (c :: (splitComma cs).headI) :: (splitComma cs).tail

/-- Embedding of `fn get_configuration_directories() -> NonEmptyVec<PathBuf>`
from non_empty.rs lines 11-19: read `CONFIG_DIRS` (empty string when unset),
split on `,`, then `pop`; `Some(head)` builds `NonEmptyVec(head, rest)`,
`None` panics with "CONFIG_DIRS cannot be empty" (embedded as `.error`). -/
def get_configuration_directories (env : Option (List Char)) :
    Except String (NonEmptyVec (List Char)) :=
  let config_dirs_list := splitComma (env.getD [])
  match pop config_dirs_list with
  | (some h, rest) => .ok ⟨h, rest⟩
  | (none, _) => .error "CONFIG_DIRS cannot be empty"

/-- Embedding of `fn get_configuration_directories() -> Vec<PathBuf>` from
`src/configuration_directories/src/main.rs` lines 17-26: read `CONFIG_DIRS`,
split on `,`, panic (embedded as `.error`) if the list is empty. -/
def get_configuration_directories_rt (env : Option (List Char)) :
    Except String (List (List Char)) :=
  let config_dirs_list := splitComma (env.getD [])
  if config_dirs_list.isEmpty then .error "CONFIG_DIRS cannot be empty"
  else .ok config_dirs_list

/-- Embedding of `fn head<T>(slice: &[T]) -> Option<T>` (`slice.get(0)`)
from main.rs lines 28-30 and head/src/main.rs lines 16-18. -/
def headSlice {T : Type} (slice : List T) : Option T :=
  slice.get? 0

/-- Embedding of `fn main()` from main.rs lines 8-15 up to the value handed
to the out-of-scope `initialize_cache` stub: the `None` arm of the match
panics with "should never happen; ..." (embedded as `.error`). -/
def main_rt (env : Option (List Char)) : Except String (List Char) :=
  match get_configuration_directories_rt env with
  | .error e => .error e
  | .ok config_dirs =>
    match headSlice config_dirs with
    | some cache_dir => .ok cache_dir
    | none => .error "should never happen; already checked configDirs is non-empty"

/-- Splitting any character list on the comma yields at least one piece. -/
theorem splitComma_cons (s : List Char) : ∃ w ws, splitComma s = w :: ws := by
  cases s with
  | nil => exact ⟨[], [], rfl⟩
  | cons c cs =>
    by_cases h : c = ','
    · exact ⟨[], splitComma cs, by simp [splitComma, h]⟩
    · exact ⟨c :: (splitComma cs).headI, (splitComma cs).tail, by simp [splitComma, h]⟩

/-- On a non-empty vector, `parse_non_empty` pops the last element as head
and keeps the first `n-1` elements, in order, as the stored vector. -/
theorem parse_non_empty_eq_getLast {T : Type} (v : List T) (h : v ≠ []) :
    parse_non_empty v = .ok ⟨v.getLast h, v.dropLast⟩ := by
  simp [parse_non_empty, pop, List.getLast?_eq_getLast v h]

/-- The type-driven `get_configuration_directories` always succeeds, with
head the last piece of the comma-split and stored vector the other pieces. -/
theorem get_configuration_directories_ok (env : Option (List Char)) :
    ∃ v, get_configuration_directories env = .ok v ∧
      (splitComma (env.getD [])).getLast? = some (head v) ∧
      v.f1 = (splitComma (env.getD [])).dropLast := by
  obtain ⟨w, ws, hs⟩ := splitComma_cons (env.getD [])
  have hne : splitComma (env.getD []) ≠ [] := by simp [hs]
  refine ⟨⟨(splitComma (env.getD [])).getLast hne,
           (splitComma (env.getD [])).dropLast⟩, ?_, ?_, rfl⟩
  · simp [get_configuration_directories, pop, List.getLast?_eq_getLast _ hne]
  · simp [head, List.getLast?_eq_getLast _ hne]

/-- Claim C1 (code bug, code evaluated at the failing input): the claim says
`parse_non_empty ["/etc/app", "/home/user/.config/app"]` succeeds with head
`"/etc/app"`, the first element; the code pops the LAST element, so the head
is `"/home/user/.config/app"`, which differs from `"/etc/app"`. -/
theorem c1_parse_config_paths_head_is_last :
    parse_non_empty ["/etc/app", "/home/user/.config/app"] =
      .ok ⟨"/home/user/.config/app", ["/etc/app"]⟩ ∧
    head (NonEmptyVec.mk "/home/user/.config/app" ["/etc/app"]) ≠ "/etc/app" :=
  ⟨rfl, by decide⟩

/-- Claim C2: for every element type, `parse_non_empty` on the empty vector
returns the error value `"Vec was empty"` as a result (the embedding has no
panic branch here: the code returns `Err`, never a default value). -/
theorem c2_parse_non_empty_nil_err (T : Type) :
    parse_non_empty ([] : List T) = .error "Vec was empty" :=
  rfl

/-- Claim C3: direct construction `NonEmptyVec(h, t)` is a total constructor
with no error path, and `head` applied to the result returns exactly `h`. -/
theorem c3_head_of_mk (T : Type) (h : T) (t : List T) :
    head (NonEmptyVec.mk h t) = h :=
  rfl

/-- Claim C4: `head` is total on `NonEmptyVec`: for every value it directly
returns an element of the sequence — a genuine element, never an
absent-value sentinel or error. -/
theorem c4_head_total (T : Type) (v : NonEmptyVec T) :
    head v ∈ intoSequence v :=
  List.mem_cons_self _ _

/-- Claim C5: every value of `NonEmptyVec` contains at least one element;
its sequence form is never empty, so the non-emptiness invariant holds for
every constructible value. -/
theorem c5_never_empty (T : Type) (v : NonEmptyVec T) :
    intoSequence v ≠ [] ∧ 1 ≤ (intoSequence v).length := by
  constructor
  · simp [intoSequence]
  · simp [intoSequence]

/-- Claim C6 (code bug, code evaluated at the failing input): the claim says
`tryFrom(s).intoSequence() == s` for every non-empty `s`; on `["a", "b"]`
the code yields `NonEmptyVec("b", ["a"])`, whose sequence form is
`["b", "a"] ≠ ["a", "b"]`, because `parse_non_empty` pops the last element
instead of taking the first. -/
theorem c6_roundtrip_fails :
    parse_non_empty ["a", "b"] = .ok ⟨"b", ["a"]⟩ ∧
    intoSequence (NonEmptyVec.mk "b" ["a"]) = ["b", "a"] ∧
    (["b", "a"] : List String) ≠ ["a", "b"] :=
  ⟨rfl, rfl, by decide⟩

/-- Claim C7: with `CONFIG_DIRS` unset, the variable is treated as the
empty string, whose comma-split is `[[]]` (one empty piece, not zero), so
`get_configuration_directories` succeeds with head the empty string. -/
theorem c7_unset_env_succeeds :
    splitComma ((none : Option (List Char)).getD []) = [[]] ∧
    get_configuration_directories none = .ok ⟨[], []⟩ ∧
    head (NonEmptyVec.mk ([] : List Char) []) = [] :=
  ⟨rfl, rfl, rfl⟩

/-- Claim C8: the baseline `head` over a general possibly-empty slice
returns `none` exactly on the empty slice, and otherwise `some` of the
first element. -/
theorem c8_headSlice_spec (T : Type) (s : List T) :
    (headSlice s = none ↔ s = []) ∧
    (∀ (x : T) (xs : List T), s = x :: xs → headSlice s = some x) := by
  constructor
  · cases s <;> simp [headSlice]
  · intro x xs hx
    subst hx
    rfl

/-- Witness for claim C8 at the concrete slice `[3]`. -/
theorem c8_headSlice_spec_witness : headSlice [(3 : Nat)] = some 3 :=
  (c8_headSlice_spec Nat [3]).2 3 [] rfl

/-- Claim C9 (implicit behavior): `parse_non_empty` on a non-empty vector
returns `Ok(NonEmptyVec(h, t))` with `h` the LAST element (via `Vec::pop`)
and `t` the first `n-1` elements in order, and
`get_configuration_directories` selects its head the same way: the head is
the last comma-separated piece. -/
theorem c9_parse_takes_last (T : Type) :
    (∀ (v : List T) (h : v ≠ []),
        parse_non_empty v = .ok ⟨v.getLast h, v.dropLast⟩) ∧
    (∀ env : Option (List Char), ∃ v,
        get_configuration_directories env = .ok v ∧
        (splitComma (env.getD [])).getLast? = some (head v) ∧
        v.f1 = (splitComma (env.getD [])).dropLast) :=
  ⟨fun v h => parse_non_empty_eq_getLast v h,
   fun env => get_configuration_directories_ok env⟩

/-- Witness for claim C9 at the concrete vector `[1, 2]`. -/
theorem c9_parse_takes_last_witness :
    parse_non_empty [1, 2] = .ok ⟨2, [1]⟩ :=
  (c9_parse_takes_last Nat).1 [1, 2] (by decide)

/-- Claim C10 (implicit behavior): for every possible value of the
`CONFIG_DIRS` environment variable, including absent, the comma-split is
non-empty, so every emptiness-guarding panic branch is unreachable: the
`None` arm in `get_configuration_directories` (non_empty.rs), the
`is_empty` panic in `get_configuration_directories` (main.rs), and the
`None` arm of the head match in `main` (main.rs) never execute — each
embedded function always returns `.ok`. -/
theorem c10_empty_branches_unreachable (env : Option (List Char)) :
    (∃ v, get_configuration_directories env = .ok v) ∧
    (∃ l, get_configuration_directories_rt env = .ok l) ∧
    (∃ d, main_rt env = .ok d) := by
  obtain ⟨w, ws, hs⟩ := splitComma_cons (env.getD [])
  obtain ⟨v, hv, -, -⟩ := get_configuration_directories_ok env
  refine ⟨⟨v, hv⟩, ⟨w :: ws, ?_⟩, ⟨w, ?_⟩⟩
  · simp [get_configuration_directories_rt, hs]
  · simp [main_rt, get_configuration_directories_rt, hs, headSlice]

end ParseDontValidate
